import Mathlib

/-!
Shallow embedding of the core of the `deploy_django` restaurant-recommender
(content-based scorer, collaborative scorer, hybrid combiner, DQN feedback
agent, RL feature extraction) and proofs about it.

Numeric values are modelled as exact rationals (`ℚ`); Python decimal literals
such as `0.6` or `0.995` denote the same rationals here.  Python dictionaries
holding user profiles and restaurant records become Lean structures with
`Option`-typed fields (`none` = key absent / null).  Python's stable
`sorted(..., key=k, reverse=True)` is modelled by Mathlib's stable
`List.insertionSort` with the relation `fun a b => k b ≤ k a`.
-/

namespace Recommender

/-- A loosely-typed scalar field value as it occurs in a candidate record:
a number, a string that `float()` parses to a number, or any other value
on which `float()` raises (`None`, a non-numeric string, a list, ...). -/
inductive JVal where
  | num (q : ℚ)
  | numStr (q : ℚ)
  | other
deriving DecidableEq, Repr

/-- Python `float(v)` on a field value: succeeds on numbers and numeric
strings, raises (here: `none`) otherwise. -/
def JVal.toFloat? : JVal → Option ℚ
  | .num q => some q
  | .numStr q => some q
  | .other => none

/-- A restaurant/candidate record (`src/recommender` passes these around as
dicts).  `none` models an absent key (pandas: `NaN`). -/
structure Restaurant where
  place_id : Option String := none
  name : Option String := none
  categories : Option (List String) := none
  editorial_summary : Option String := none
  rating : Option JVal := none
  price_level : Option JVal := none
  final_score : Option JVal := none
deriving DecidableEq, Repr

/-- A user profile dict.  `favourites` models the list of favourite entries:
each element is `some place_id` when the entry is a dict carrying a
`place_id` key, `none` otherwise (non-dict entries and dicts without the key
are skipped by every consumer).  `extra` models any further keys of the dict;
the core never reads them. -/
structure Profile where
  uid : Option String := none
  preferences : List String := []
  restrictions : List String := []
  favourites : List (Option String) := []
  extra : List (String × JVal) := []

/-- `{fav['place_id'] for fav in favourites if isinstance(fav, dict) and
'place_id' in fav}` (identical comprehension in `content_based.py` line 61
and `collaborative.py` line 99). -/
def favSet (p : Profile) : Finset String :=
  (p.favourites.filterMap id).toFinset

/-! ### Jaccard similarity (`collaborative.py`, `_calculate_jaccard_similarity`) -/

/-- `_calculate_jaccard_similarity(set1, set2)`:
`intersection / union if union != 0 else 0`. -/
def calculateJaccardSimilarity (set1 set2 : Finset String) : ℚ :=
  if ((set1 ∪ set2).card : ℚ) ≠ 0 then
    ((set1 ∩ set2).card : ℚ) / ((set1 ∪ set2).card : ℚ)
  else 0

theorem jaccard_comm (A B : Finset String) :
    calculateJaccardSimilarity A B = calculateJaccardSimilarity B A := by
  simp [calculateJaccardSimilarity, Finset.inter_comm, Finset.union_comm]

theorem jaccard_nonneg (A B : Finset String) : 0 ≤ calculateJaccardSimilarity A B := by
  unfold calculateJaccardSimilarity
  split
  · positivity
  · exact le_refl 0

theorem jaccard_le_one (A B : Finset String) : calculateJaccardSimilarity A B ≤ 1 := by
  unfold calculateJaccardSimilarity
  split
  · rename_i h
    have hpos : (0 : ℚ) < (A ∪ B).card := by
      rcases lt_or_eq_of_le (by positivity : (0:ℚ) ≤ ((A ∪ B).card : ℚ)) with h' | h'
      · exact h'
      · exact absurd h'.symm h
    rw [div_le_one hpos]
    exact_mod_cast Finset.card_le_card Finset.inter_subset_union
  · exact zero_le_one

theorem jaccard_disjoint {A B : Finset String} (h : Disjoint A B) :
    calculateJaccardSimilarity A B = 0 := by
  unfold calculateJaccardSimilarity
  have : (A ∩ B).card = 0 := by
    simp [Finset.card_eq_zero, Finset.disjoint_iff_inter_eq_empty.mp h]
  split <;> simp [this]

theorem jaccard_self {A : Finset String} (h : A.Nonempty) :
    calculateJaccardSimilarity A A = 1 := by
  unfold calculateJaccardSimilarity
  have hc : (0:ℚ) < A.card := by exact_mod_cast Finset.card_pos.mpr h
  rw [Finset.inter_self, Finset.union_self, if_pos (by exact ne_of_gt hc)]
  exact div_self (ne_of_gt hc)

/-- C7: the Jaccard similarity function of `collaborative.py` is symmetric and
bounded in `[0,1]`; it is `0` on disjoint sets (including two empty sets) and
`1` on any non-empty set paired with itself. -/
theorem claim_C7_jaccard_properties (A B : Finset String) :
    calculateJaccardSimilarity A B = calculateJaccardSimilarity B A
    ∧ 0 ≤ calculateJaccardSimilarity A B
    ∧ calculateJaccardSimilarity A B ≤ 1
    ∧ (Disjoint A B → calculateJaccardSimilarity A B = 0)
    ∧ (A.Nonempty → calculateJaccardSimilarity A A = 1) :=
  ⟨jaccard_comm A B, jaccard_nonneg A B, jaccard_le_one A B,
    fun h => jaccard_disjoint h, fun h => jaccard_self h⟩

/-- Closed instance of `claim_C7_jaccard_properties` at concrete sets,
with its conditional clauses discharged. -/
theorem claim_C7_jaccard_properties_witness :
    calculateJaccardSimilarity {"a"} {"b"} = calculateJaccardSimilarity {"b"} {"a"}
    ∧ calculateJaccardSimilarity {"a"} {"b"} = 0
    ∧ calculateJaccardSimilarity {"a"} {"a"} = 1 :=
  ⟨(claim_C7_jaccard_properties {"a"} {"b"}).1,
    (claim_C7_jaccard_properties {"a"} {"b"}).2.2.2.1 (by decide),
    (claim_C7_jaccard_properties {"a"} {"a"}).2.2.2.2 (by simp)⟩

/-! ### DQN agent epsilon (`reinforcement_learning.py` lines 25-29 and 69-70)

The agent stores `epsilon = 1.0`, `epsilon_min = 0.01`, `epsilon_decay = 0.995`
at construction; at the end of each executed `replay` batch it runs
`if self.epsilon > self.epsilon_min: self.epsilon *= self.epsilon_decay`. -/

def epsilonInit : ℚ := 1.0

def epsilonMin : ℚ := 0.01

def epsilonDecayFactor : ℚ := 0.995

/-- The epsilon update at the end of `DQNAgent.replay` (lines 69-70). -/
def replayEpsilonStep (eps : ℚ) : ℚ :=
  if epsilonMin < eps then eps * epsilonDecayFactor else eps

/-- The agent's epsilon after `n` executed replay batches on one instance. -/
def epsilonAfter : ℕ → ℚ
  | 0 => epsilonInit
  | n + 1 => replayEpsilonStep (epsilonAfter n)

theorem epsilonDecayFactor_pow_gt (n : ℕ) (hn : n ≤ 918) :
    epsilonMin < epsilonDecayFactor ^ n := by
  have h918 : epsilonMin < epsilonDecayFactor ^ 918 := by
    show (0.01 : ℚ) < (0.995 : ℚ) ^ 918
    norm_num
  calc epsilonMin < epsilonDecayFactor ^ 918 := h918
    _ ≤ epsilonDecayFactor ^ n :=
        pow_le_pow_of_le_one (by norm_num [epsilonDecayFactor])
          (by norm_num [epsilonDecayFactor]) hn

theorem epsilonAfter_eq_pow (n : ℕ) (hn : n ≤ 919) :
    epsilonAfter n = epsilonDecayFactor ^ n := by
  induction n with
  | zero => norm_num [epsilonAfter, epsilonInit]
  | succ k ih =>
    have hk : k ≤ 918 := by omega
    rw [epsilonAfter, ih (by omega), replayEpsilonStep,
      if_pos (epsilonDecayFactor_pow_gt k hk), pow_succ]

/-- C8 counterexample: after 919 replay batches the code's epsilon is
`0.995 ^ 919 ≈ 0.0099865`, strictly below `epsilon_min = 0.01`: the floor
check happens before the multiplication, so epsilon overshoots the floor. -/
theorem claim_C8_epsilon_below_min_after_919_replays :
    epsilonAfter 919 < epsilonMin := by
  rw [epsilonAfter_eq_pow 919 (by omega)]
  show (0.995 : ℚ) ^ 919 < (0.01 : ℚ)
  norm_num

/-- C8 (amended): epsilon starts at `1.0`, decays by factor `0.995` only while
strictly above `0.01`, and after every sequence of replay batches lies in
`[0.995 * 0.01, 1] = [0.00995, 1]`; it can end strictly below the claimed
floor `0.01`, but never below `0.00995`. -/
theorem claim_C8_epsilon_invariant (n : ℕ) :
    epsilonAfter 0 = 1
    ∧ epsilonDecayFactor * epsilonMin ≤ epsilonAfter n ∧ epsilonAfter n ≤ 1
    ∧ (epsilonMin < epsilonAfter n →
        epsilonAfter (n + 1) = epsilonAfter n * epsilonDecayFactor)
    ∧ (epsilonAfter n ≤ epsilonMin → epsilonAfter (n + 1) = epsilonAfter n) := by
  refine ⟨by norm_num [epsilonAfter, epsilonInit], ?_, ?_, ?_, ?_⟩
  · induction n with
    | zero => norm_num [epsilonAfter, epsilonInit, epsilonDecayFactor, epsilonMin]
    | succ k ih =>
      rw [epsilonAfter, replayEpsilonStep]
      split
      · rename_i h
        calc epsilonDecayFactor * epsilonMin
            ≤ epsilonDecayFactor * epsilonAfter k := by
              apply mul_le_mul_of_nonneg_left (le_of_lt h)
              norm_num [epsilonDecayFactor]
          _ = epsilonAfter k * epsilonDecayFactor := mul_comm _ _
      · exact ih
  · induction n with
    | zero => norm_num [epsilonAfter, epsilonInit]
    | succ k ih =>
      rw [epsilonAfter, replayEpsilonStep]
      split
      · rename_i h
        calc epsilonAfter k * epsilonDecayFactor
            ≤ 1 * 1 := by
              apply mul_le_mul ih (by norm_num [epsilonDecayFactor]) _ zero_le_one
              norm_num [epsilonDecayFactor]
          _ = 1 := by norm_num
      · exact ih
  · intro h
    rw [epsilonAfter, replayEpsilonStep, if_pos h]
  · intro h
    rw [epsilonAfter, replayEpsilonStep, if_neg (by exact not_lt.mpr h)]

/-- Closed instance of `claim_C8_epsilon_invariant` at `n = 919`, the point
where epsilon sits strictly between `0.00995` and `0.01`. -/
theorem claim_C8_epsilon_invariant_witness :
    epsilonDecayFactor * epsilonMin ≤ epsilonAfter 919 ∧ epsilonAfter 919 ≤ 1
    ∧ epsilonAfter 920 = epsilonAfter 919 := by
  obtain ⟨-, h1, h2, -, h4⟩ := claim_C8_epsilon_invariant 919
  refine ⟨h1, h2, h4 ?_⟩
  rw [epsilonAfter_eq_pow 919 (by omega)]
  show (0.995 : ℚ) ^ 919 ≤ (0.01 : ℚ)
  norm_num

/-! ### Category lexicon (`constants.py`) -/

/-- The keys of `CATEGORY_DICT`, in insertion order. -/
def categoryDictKeys : List String :=
  ["halal", "vegetarian", "vegan", "beef-free", "chinese", "malay", "indian",
   "korean", "japanese", "thai", "western", "eastern", "cafe", "bar",
   "buffet", "fast-food"]

/-- `CATEGORY_KEYS = sorted(list(CATEGORY_DICT.keys()))`. -/
def CATEGORY_KEYS : List String :=
  categoryDictKeys.insertionSort (· ≤ ·)

/-! ### RL feature extraction (`reinforcement_learning.py`, `extract_rl_features`) -/

/-- `STATE_SIZE = 35`. -/
def STATE_SIZE : ℕ := 35

/-- Python `int()` on a float value: truncation toward zero. -/
def pyInt (q : ℚ) : ℤ := q.num.tdiv q.den

/-- `float(restaurant.get('rating', 3.0)) / 5.0`, with the `except` branch
returning `3.0 / 5.0`.  The `match` models the `try/except` around `float()`. -/
def ratingFeature (r : Restaurant) : ℚ :=
  match r.rating with
  | none => 3.0 / 5.0
  | some v =>
    match v.toFloat? with
    | some q => q / 5.0
    | none => 3.0 / 5.0

/-- `int(float(restaurant.get('price_level', 2))) / 4.0`, with the `except`
branch returning `2 / 4.0`. -/
def priceFeature (r : Restaurant) : ℚ :=
  match r.price_level with
  | none => 2 / 4.0
  | some v =>
    match v.toFloat? with
    | some q => (pyInt q : ℚ) / 4.0
    | none => 2 / 4.0

/-- `float(restaurant.get('final_score', 0.0))`, with the `except` branch
returning `0.0`. -/
def hybridScoreFeature (r : Restaurant) : ℚ :=
  match r.final_score with
  | none => 0.0
  | some v =>
    match v.toFloat? with
    | some q => q
    | none => 0.0

/-- `extract_rl_features(restaurant, all_categories)`: the 3 sanitized scalar
features, the one-hot category vector over `all_categories`, right-padded
with zeros (`while len < STATE_SIZE: append(0)`) and truncated to
`STATE_SIZE` (`features[:STATE_SIZE]`). -/
def extract_rl_features (restaurant : Restaurant) (all_categories : List String) :
    List ℚ :=
  let rec_cats := restaurant.categories.getD []
  let cat_vector : List ℚ := all_categories.map (fun cat => if cat ∈ rec_cats then 1 else 0)
  let features := [ratingFeature restaurant, priceFeature restaurant,
    hybridScoreFeature restaurant] ++ cat_vector
  let padded := features ++ List.replicate (STATE_SIZE - features.length) 0
  padded.take STATE_SIZE

theorem extract_rl_features_getD_zero (r : Restaurant) (lex : List String) :
    (extract_rl_features r lex).getD 0 0 = ratingFeature r := by
  unfold extract_rl_features
  rw [List.getD_eq_getElem?_getD, List.getElem?_take_of_lt (by norm_num [STATE_SIZE])]
  simp

theorem extract_rl_features_getD_one (r : Restaurant) (lex : List String) :
    (extract_rl_features r lex).getD 1 0 = priceFeature r := by
  unfold extract_rl_features
  rw [List.getD_eq_getElem?_getD, List.getElem?_take_of_lt (by norm_num [STATE_SIZE])]
  simp

theorem extract_rl_features_getD_two (r : Restaurant) (lex : List String) :
    (extract_rl_features r lex).getD 2 0 = hybridScoreFeature r := by
  unfold extract_rl_features
  rw [List.getD_eq_getElem?_getD, List.getElem?_take_of_lt (by norm_num [STATE_SIZE])]
  simp

theorem extract_rl_features_length (restaurant : Restaurant)
    (all_categories : List String) :
    (extract_rl_features restaurant all_categories).length = STATE_SIZE := by
  unfold extract_rl_features
  simp only [List.length_take, List.length_append, List.length_replicate]
  omega

/-- C5: `extract_rl_features` always returns a vector of length exactly 35
(it is a total function, i.e. never raises); the first component defaults to
`3.0/5.0` when `rating` is missing or unparseable, the second to `2/4` when
`price_level` is, the third to `0.0` when `final_score` is, and category tags
absent from the lexicon are ignored (deleting them from the record does not
change the output). -/
theorem claim_C5_feature_vector (restaurant : Restaurant)
    (all_categories : List String) :
    (extract_rl_features restaurant all_categories).length = 35
    ∧ ((restaurant.rating.bind JVal.toFloat?) = none →
        (extract_rl_features restaurant all_categories).getD 0 0 = 3.0 / 5.0)
    ∧ ((restaurant.price_level.bind JVal.toFloat?) = none →
        (extract_rl_features restaurant all_categories).getD 1 0 = 2 / 4.0)
    ∧ ((restaurant.final_score.bind JVal.toFloat?) = none →
        (extract_rl_features restaurant all_categories).getD 2 0 = 0)
    ∧ extract_rl_features
        { restaurant with
          categories := some ((restaurant.categories.getD []).filter (· ∈ all_categories)) }
        all_categories
      = extract_rl_features restaurant all_categories := by
  refine ⟨extract_rl_features_length restaurant all_categories, ?_, ?_, ?_, ?_⟩
  · intro h
    rw [extract_rl_features_getD_zero, ratingFeature]
    cases hr : restaurant.rating with
    | none => rfl
    | some v =>
      have : v.toFloat? = none := by simpa [hr] using h
      simp [this]
  · intro h
    rw [extract_rl_features_getD_one, priceFeature]
    cases hp : restaurant.price_level with
    | none => rfl
    | some v =>
      have : v.toFloat? = none := by simpa [hp] using h
      simp [this]
  · intro h
    rw [extract_rl_features_getD_two, hybridScoreFeature]
    cases hf : restaurant.final_score with
    | none => norm_num
    | some v =>
      have : v.toFloat? = none := by simpa [hf] using h
      norm_num [this]
  · unfold extract_rl_features
    simp only [ratingFeature, priceFeature, hybridScoreFeature, Option.getD_some]
    have hmap : List.map
        (fun cat =>
          if cat ∈ (restaurant.categories.getD []).filter (· ∈ all_categories) then (1:ℚ) else 0)
        all_categories
        = List.map (fun cat => if cat ∈ restaurant.categories.getD [] then (1:ℚ) else 0)
        all_categories :=
      List.map_congr_left (fun cat hcat => by simp [List.mem_filter, hcat])
    rw [hmap]

/-- Closed instance of `claim_C5_feature_vector`: `rating = "bad"` (a string
`float()` rejects) yields the `0.6` default term, on a record with a tag
outside the lexicon. -/
theorem claim_C5_feature_vector_witness :
    (extract_rl_features
        { place_id := some "A", rating := some JVal.other,
          categories := some ["japanese", "notacategory"] } CATEGORY_KEYS).length = 35
    ∧ (extract_rl_features
        { place_id := some "A", rating := some JVal.other,
          categories := some ["japanese", "notacategory"] } CATEGORY_KEYS).getD 0 0
      = 3.0 / 5.0 := by
  obtain ⟨h1, h2, -, -, -⟩ := claim_C5_feature_vector
    { place_id := some "A", rating := some JVal.other,
      categories := some ["japanese", "notacategory"] } CATEGORY_KEYS
  exact ⟨h1, h2 rfl⟩

/-! ### Content scorer (`content_based.py`, `get_content_based_recommendations`) -/

/-- A candidate record annotated with a `score` key. -/
structure Scored where
  rec_data : Restaurant
  score : ℚ
deriving DecidableEq, Repr

/-- The rating field as the numeric value the pandas DataFrame column holds
(`NaN`/absent → `none`; a non-float-typed rating is outside the data model
and not representable in the numeric column). -/
def Restaurant.ratingQ (r : Restaurant) : Option ℚ :=
  match r.rating with
  | some (.num q) => some q
  | _ => none

/-- pandas `Series.median()` over the present (non-NaN) values: sort
ascending, middle element for an odd count, mean of the two middle elements
for an even count, `none` (NaN) when no value is present. -/
def median (l : List ℚ) : Option ℚ :=
  if l.length = 0 then none
  else if l.length % 2 = 1 then
    some ((l.insertionSort (· ≤ ·)).getD (l.length / 2) 0)
  else
    some (((l.insertionSort (· ≤ ·)).getD (l.length / 2 - 1) 0
      + (l.insertionSort (· ≤ ·)).getD (l.length / 2) 0) / 2)

/-- `content_df['rating'].median()` (line 70): median over the candidates
that carry a rating. -/
def medianRating (restaurants_data : List Restaurant) : Option ℚ :=
  median (restaurants_data.filterMap Restaurant.ratingQ)

/-- One row of the pre-processed DataFrame (lines 69-73):
`editorial_summary` filled with `"N/A"`, `rating` filled with the column
median (still NaN = `none` when the median itself is NaN), `categories`
replaced by `[]` when not a list.  `Processed_Content` (line 74, a text blob
consumed only by the TF-IDF vectorizer) is not modelled; see the `tfidf`
parameter below. -/
def preprocessRow (m : Option ℚ) (r : Restaurant) : Restaurant :=
  { r with
    editorial_summary := some (r.editorial_summary.getD "N/A"),
    rating := (r.ratingQ.or m).map JVal.num,
    categories := some (r.categories.getD []) }

theorem preprocessRow_ratingQ (m : Option ℚ) (r : Restaurant) :
    (preprocessRow m r).ratingQ = r.ratingQ.or m := by
  unfold preprocessRow Restaurant.ratingQ
  cases r.rating with
  | none => cases m <;> rfl
  | some v => cases v <;> cases m <;> rfl

theorem preprocessRow_categories (m : Option ℚ) (r : Restaurant) :
    (preprocessRow m r).categories = some (r.categories.getD []) := rfl

/-- Lines 103-107: `preference_score = 0`, overwritten with
`len(preferences ∩ categories) / len(preferences)` when `preferences` is a
non-empty set. -/
def preferenceScore (user_preferences rec_categories : Finset String) : ℚ :=
  if user_preferences ≠ ∅ then
    ((user_preferences ∩ rec_categories).card : ℚ) / user_preferences.card
  else 0

/-- The scoring-loop body (lines 94-127) for one row: the restriction gate,
then the dynamically-weighted sum of TF-IDF, preference, and rating terms.
`ratingVal` is the row's post-fill rating (`none` = NaN, possible only when
no candidate carries a rating; the Python arithmetic would propagate NaN
there — this embedding reads `0`, and every theorem below that touches the
rating term assumes a rating is available). -/
def scoreRow (user_preferences user_restrictions rec_categories : Finset String)
    (ratingVal : Option ℚ) (tfidfScore : ℚ) : ℚ :=
  if ¬ user_restrictions ⊆ rec_categories then 0.0
  else
    (if tfidfScore > 0 then (0.4 : ℚ) else 0.0) * tfidfScore
    + (if tfidfScore > 0 then (0.4 : ℚ) else 0.8)
      * preferenceScore user_preferences rec_categories
    + 0.2 * (ratingVal.getD 0 / 5.0)

/-- `get_content_based_recommendations(user_profile, restaurants_data)`.
The TF-IDF pipeline (lines 80-90, sklearn) is an external numeric
collaborator: `tfidf favs i` is row `i`'s entry of `tfidf_scores`, a function
of the user's favourite place-id set (the only profile data entering lines
84-90) and of the candidate texts; the code yields all zeros when no
favourite place-id occurs among the candidates.  The final
`sorted(..., key=score, reverse=True)` (line 138) is Python's stable sort,
modelled by the stable `insertionSort` on the flipped relation. -/
def get_content_based_recommendations (user_profile : Profile)
    (restaurants_data : List Restaurant) (tfidf : Finset String → ℕ → ℚ) :
    List Scored :=
  if restaurants_data = [] then []
  else
    (restaurants_data.enum.map (fun ir =>
      { rec_data := preprocessRow (medianRating restaurants_data) ir.2,
        score := scoreRow user_profile.preferences.toFinset
          user_profile.restrictions.toFinset
          (ir.2.categories.getD []).toFinset
          ((preprocessRow (medianRating restaurants_data) ir.2).ratingQ)
          (tfidf (favSet user_profile) ir.1) })).insertionSort
      (fun a b => b.score ≤ a.score)

/-- C1: every record returned by the content scorer whose category set does
not include all of the profile's restrictions carries score exactly `0`,
whatever its preference overlap, rating, and text-similarity values. -/
theorem claim_C1_restriction_gate (user_profile : Profile)
    (restaurants_data : List Restaurant) (tfidf : Finset String → ℕ → ℚ)
    (s : Scored)
    (hs : s ∈ get_content_based_recommendations user_profile restaurants_data tfidf)
    (hgate : ¬ user_profile.restrictions.toFinset ⊆ (s.rec_data.categories.getD []).toFinset) :
    s.score = 0 := by
  unfold get_content_based_recommendations at hs
  split at hs
  · simp at hs
  · rw [List.mem_insertionSort, List.mem_map] at hs
    obtain ⟨ir, -, rfl⟩ := hs
    rw [preprocessRow_categories, Option.getD_some] at hgate
    rw [scoreRow, if_pos hgate]
    norm_num

/-- Closed instance of `claim_C1_restriction_gate`: a halal-restricted user
and a single non-halal candidate with a high rating and preference overlap
(the scorer's record for it, which is a member of the output, scores 0). -/
theorem claim_C1_restriction_gate_witness :
    (⟨{ place_id := some "A", categories := some ["western"],
        editorial_summary := some "N/A", rating := some (JVal.num 5) }, 0⟩ : Scored).score
    = 0 :=
  claim_C1_restriction_gate
    { uid := some "u1", preferences := ["western"], restrictions := ["halal"] }
    [{ place_id := some "A", categories := some ["western"],
       rating := some (JVal.num 5) }]
    (fun _ _ => 1)
    ⟨{ place_id := some "A", categories := some ["western"],
       editorial_summary := some "N/A", rating := some (JVal.num 5) }, 0⟩
    (by
      norm_num [get_content_based_recommendations, preprocessRow, scoreRow,
        preferenceScore, medianRating, median, favSet, Restaurant.ratingQ,
        List.insertionSort, List.orderedInsert, List.enum, List.enumFrom]
      simp) (by decide)

theorem getD_mem_of_lt {l : List ℚ} {i : ℕ} (h : i < l.length) : l.getD i 0 ∈ l := by
  rw [List.getD_eq_getElem?_getD, List.getElem?_eq_getElem h]
  exact List.getElem_mem h

theorem median_mem_bounds {l : List ℚ} {a b m : ℚ}
    (hb : ∀ x ∈ l, a ≤ x ∧ x ≤ b) (hm : median l = some m) : a ≤ m ∧ m ≤ b := by
  unfold median at hm
  have hs : ∀ x ∈ l.insertionSort (· ≤ ·), a ≤ x ∧ x ≤ b := fun x hx =>
    hb x ((List.perm_insertionSort _ l).subset hx)
  have hlen : (l.insertionSort (· ≤ ·)).length = l.length :=
    List.length_insertionSort _ l
  split at hm
  · exact absurd hm (by simp)
  · split at hm
    · rename_i h0 _
      have hm' : (l.insertionSort (· ≤ ·)).getD (l.length / 2) 0 = m :=
        Option.some_injective _ hm
      have := hs _ (getD_mem_of_lt (l := l.insertionSort (· ≤ ·))
        (i := l.length / 2) (by rw [hlen]; omega))
      rwa [hm'] at this
    · rename_i h0 _
      have h1 := hs _ (getD_mem_of_lt (l := l.insertionSort (· ≤ ·))
        (i := l.length / 2 - 1) (by rw [hlen]; omega))
      have h2 := hs _ (getD_mem_of_lt (l := l.insertionSort (· ≤ ·))
        (i := l.length / 2) (by rw [hlen]; omega))
      have hm' : ((l.insertionSort (· ≤ ·)).getD (l.length / 2 - 1) 0
          + (l.insertionSort (· ≤ ·)).getD (l.length / 2) 0) / 2 = m :=
        Option.some_injective _ hm
      constructor
      · rw [← hm']; linarith [h1.1, h2.1]
      · rw [← hm']; linarith [h1.2, h2.2]

theorem median_isSome {l : List ℚ} (h : l ≠ []) : (median l).isSome := by
  unfold median
  have : l.length ≠ 0 := by simpa using h
  split
  · omega
  · split <;> rfl

theorem preferenceScore_bounds (P C : Finset String) :
    0 ≤ preferenceScore P C ∧ preferenceScore P C ≤ 1 := by
  unfold preferenceScore
  split
  · rename_i h
    have hpos : (0:ℚ) < P.card := by
      have : P.Nonempty := Finset.nonempty_iff_ne_empty.mpr h
      exact_mod_cast Finset.card_pos.mpr this
    constructor
    · positivity
    · rw [div_le_one hpos]
      exact_mod_cast Finset.card_le_card Finset.inter_subset_left
  · exact ⟨le_refl 0, zero_le_one⟩

theorem scoreRow_bounds (P R C : Finset String) {rv t : ℚ}
    (hrv0 : 0 ≤ rv) (hrv5 : rv ≤ 5) (ht0 : 0 ≤ t) (ht1 : t ≤ 1) :
    0 ≤ scoreRow P R C (some rv) t ∧ scoreRow P R C (some rv) t ≤ 1 := by
  obtain ⟨hp0, hp1⟩ := preferenceScore_bounds P C
  unfold scoreRow
  split
  · norm_num
  · simp only [Option.getD_some]
    split
    · constructor <;> nlinarith
    · constructor <;> nlinarith

/-- pandas `DataFrame(restaurants_data)` (line 66) creates a column for a
key iff at least one input dict carries it, and `content_df[key]` on a
missing column raises `KeyError`. -/
def columnPresent {α : Type} (restaurants_data : List Restaurant)
    (field : Restaurant → Option α) : Bool :=
  restaurants_data.any (fun r => (field r).isSome)

/-- `get_content_based_recommendations` including its error path.  After the
empty-input early return (lines 51-52), lines 69, 70, 73, 75 and 84 access
the DataFrame columns `editorial_summary`, `rating`, `categories`, `name`
and `place_id` in that order; each access raises `KeyError` (here
`Except.error` naming the column) when every candidate omits the key, and
nothing is returned.  On the non-raising path the result is that of
`get_content_based_recommendations`.  (Two further corners of line 70 stay
outside this embedding: a non-float rating value makes the median
computation raise `TypeError`, and a rating column holding only NaN keeps a
NaN median, turning every non-gated score into NaN — both are excluded by
the data model's `rating: float∈[0,5]?`, and the theorems below require a
numeric rating to be present.) -/
def getContentBasedRecommendationsRun (user_profile : Profile)
    (restaurants_data : List Restaurant) (tfidf : Finset String → ℕ → ℚ) :
    Except String (List Scored) :=
  if restaurants_data = [] then .ok []
  else if columnPresent restaurants_data Restaurant.editorial_summary = false then
    .error "editorial_summary"
  else if columnPresent restaurants_data Restaurant.rating = false then
    .error "rating"
  else if columnPresent restaurants_data Restaurant.categories = false then
    .error "categories"
  else if columnPresent restaurants_data Restaurant.name = false then
    .error "name"
  else if columnPresent restaurants_data Restaurant.place_id = false then
    .error "place_id"
  else .ok (get_content_based_recommendations user_profile restaurants_data tfidf)

/-- C4 counterexample, in three parts.  (a) At a fully-columned input with
preferences `["japanese"]`, candidate `A` (no matching category, rating 0)
scores 0 and candidate `B` (matching category, rating 5) scores 1, and the
scorer returns them in order `B, A` — line 138 sorts by score descending
instead of preserving the input order `A, B`.  (b) At the spec's own §8
scenario input, where every candidate omits `editorial_summary`, line 69
raises `KeyError`: no scored output is returned at all, refuting "one
annotated record per input candidate".  (c) Likewise line 70 raises when no
candidate carries a rating. -/
theorem claim_C4_counterexample :
    ¬ ((get_content_based_recommendations
        { uid := some "u1", preferences := ["japanese"] }
        [{ place_id := some "A", name := some "Alpha",
           editorial_summary := some "plain diner", categories := some [],
           rating := some (JVal.num 0) },
         { place_id := some "B", name := some "Beta",
           editorial_summary := some "sushi bar", categories := some ["japanese"],
           rating := some (JVal.num 5) }]
        (fun _ _ => 0)).map (fun s => s.rec_data.place_id)
      = [some "A", some "B"])
    ∧ getContentBasedRecommendationsRun
        { uid := some "u1", preferences := ["japanese"] }
        [{ place_id := some "A", categories := some ["japanese"],
           rating := some (JVal.num 4.5) },
         { place_id := some "B", categories := some ["western"],
           rating := some (JVal.num 3.0) }]
        (fun _ _ => 0) = .error "editorial_summary"
    ∧ getContentBasedRecommendationsRun
        { uid := some "u1", preferences := ["japanese"] }
        [{ place_id := some "A", name := some "Alpha",
           editorial_summary := some "sushi bar", categories := some ["japanese"] }]
        (fun _ _ => 0) = .error "rating" := by
  refine ⟨?_, rfl, rfl⟩
  have : (get_content_based_recommendations
        { uid := some "u1", preferences := ["japanese"] }
        [{ place_id := some "A", name := some "Alpha",
           editorial_summary := some "plain diner", categories := some [],
           rating := some (JVal.num 0) },
         { place_id := some "B", name := some "Beta",
           editorial_summary := some "sushi bar", categories := some ["japanese"],
           rating := some (JVal.num 5) }]
        (fun _ _ => 0)).map (fun s => s.rec_data.place_id)
      = [some "B", some "A"] := by
    norm_num [get_content_based_recommendations, preprocessRow, scoreRow,
      preferenceScore, medianRating, median, favSet, Restaurant.ratingQ,
      List.insertionSort, List.orderedInsert, List.enum, List.enumFrom]
    simp
  rw [this]
  simp

/-- C4 (amended): the scorer can return nothing at all — each DataFrame
column it touches must be carried by at least one candidate, or lines 69-84
raise `KeyError` (counterexample parts (b) and (c)).  When every such column
exists (at least one candidate carries `editorial_summary`, `categories`,
`name`, `place_id`, and a numeric rating) and the data-model bounds hold
(present ratings in `[0,5]`, text-similarity values in `[0,1]`), the scorer
raises nothing and returns one annotated record per input candidate, each
with score in `[0,1]` (0 for gated-out items) — but sorted descending by
score (Python's stable sort), not in input order; no sorting is left to the
caller. -/
theorem claim_C4_content_output_shape (user_profile : Profile)
    (restaurants_data : List Restaurant) (tfidf : Finset String → ℕ → ℚ)
    (hsome : ∃ r ∈ restaurants_data, r.ratingQ.isSome)
    (hrat : ∀ r ∈ restaurants_data, ∀ q ∈ r.ratingQ, 0 ≤ q ∧ q ≤ 5)
    (htf : ∀ i, 0 ≤ tfidf (favSet user_profile) i
      ∧ tfidf (favSet user_profile) i ≤ 1)
    (hed : columnPresent restaurants_data Restaurant.editorial_summary = true)
    (hcat : columnPresent restaurants_data Restaurant.categories = true)
    (hnm : columnPresent restaurants_data Restaurant.name = true)
    (hpl : columnPresent restaurants_data Restaurant.place_id = true) :
    getContentBasedRecommendationsRun user_profile restaurants_data tfidf
      = .ok (get_content_based_recommendations user_profile restaurants_data tfidf)
    ∧ (get_content_based_recommendations user_profile restaurants_data tfidf).length
      = restaurants_data.length
    ∧ (∀ s ∈ get_content_based_recommendations user_profile restaurants_data tfidf,
        0 ≤ s.score ∧ s.score ≤ 1)
    ∧ List.Sorted (fun a b => b.score ≤ a.score)
        (get_content_based_recommendations user_profile restaurants_data tfidf) := by
  have hratcol : columnPresent restaurants_data Restaurant.rating = true := by
    obtain ⟨r0, hr0, hr0s⟩ := hsome
    apply List.any_eq_true.mpr
    refine ⟨r0, hr0, ?_⟩
    unfold Restaurant.ratingQ at hr0s
    cases hv : r0.rating with
    | none => rw [hv] at hr0s; simp at hr0s
    | some v => simp [hv]
  have hrunok : getContentBasedRecommendationsRun user_profile restaurants_data tfidf
      = .ok (get_content_based_recommendations user_profile restaurants_data tfidf) := by
    have hne : restaurants_data ≠ [] := by
      obtain ⟨r0, hr0, -⟩ := hsome
      rintro rfl; exact absurd hr0 (by simp)
    unfold getContentBasedRecommendationsRun
    rw [if_neg hne, hed, hratcol, hcat, hnm, hpl]
    simp
  refine ⟨hrunok, ?_⟩
  obtain ⟨r0, hr0, hr0s⟩ := hsome
  have hne : restaurants_data ≠ [] := by rintro rfl; exact absurd hr0 (by simp)
  have hmed : ∃ mq, medianRating restaurants_data = some mq ∧ 0 ≤ mq ∧ mq ≤ 5 := by
    have hne' : restaurants_data.filterMap Restaurant.ratingQ ≠ [] := by
      obtain ⟨q, hq⟩ := Option.isSome_iff_exists.mp hr0s
      have : q ∈ restaurants_data.filterMap Restaurant.ratingQ :=
        List.mem_filterMap.mpr ⟨r0, hr0, hq⟩
      intro hnil
      rw [hnil] at this
      exact absurd this (by simp)
    obtain ⟨mq, hmq⟩ := Option.isSome_iff_exists.mp (median_isSome hne')
    refine ⟨mq, hmq, median_mem_bounds (fun x hx => ?_) hmq⟩
    obtain ⟨r, hr, hrx⟩ := List.mem_filterMap.mp hx
    exact hrat r hr x (by simp [hrx])
  obtain ⟨mq, hmq, hmq0, hmq5⟩ := hmed
  unfold get_content_based_recommendations
  rw [if_neg hne]
  haveI : IsTotal Scored (fun a b => b.score ≤ a.score) :=
    ⟨fun a b => le_total b.score a.score⟩
  haveI : IsTrans Scored (fun a b => b.score ≤ a.score) :=
    ⟨fun _ _ _ h1 h2 => le_trans h2 h1⟩
  refine ⟨?_, ?_, List.sorted_insertionSort _ _⟩
  · rw [List.length_insertionSort, List.length_map, List.enum_length]
  · intro s hs
    rw [List.mem_insertionSort, List.mem_map] at hs
    obtain ⟨⟨i, r⟩, hir, rfl⟩ := hs
    have hmem : r ∈ restaurants_data :=
      List.get?_mem (List.mk_mem_enum_iff_get?.mp hir)
    have hrq : ∃ q, (preprocessRow (medianRating restaurants_data) r).ratingQ
        = some q ∧ 0 ≤ q ∧ q ≤ 5 := by
      rw [preprocessRow_ratingQ]
      cases hq : r.ratingQ with
      | none => exact ⟨mq, by rw [hmq]; rfl, hmq0, hmq5⟩
      | some q =>
        exact ⟨q, rfl, (hrat r hmem q (by simp [hq])).1,
          (hrat r hmem q (by simp [hq])).2⟩
    obtain ⟨q, hq, hq0, hq5⟩ := hrq
    rw [hq]
    exact scoreRow_bounds _ _ _ hq0 hq5 (htf i).1 (htf i).2

/-- Closed instance of `claim_C4_content_output_shape` at the fully-columned
two-candidate input of counterexample part (a). -/
theorem claim_C4_content_output_shape_witness :
    getContentBasedRecommendationsRun
        { uid := some "u1", preferences := ["japanese"] }
        [{ place_id := some "A", name := some "Alpha",
           editorial_summary := some "plain diner", categories := some [],
           rating := some (JVal.num 0) },
         { place_id := some "B", name := some "Beta",
           editorial_summary := some "sushi bar", categories := some ["japanese"],
           rating := some (JVal.num 5) }]
        (fun _ _ => 0)
      = .ok (get_content_based_recommendations
          { uid := some "u1", preferences := ["japanese"] }
          [{ place_id := some "A", name := some "Alpha",
             editorial_summary := some "plain diner", categories := some [],
             rating := some (JVal.num 0) },
           { place_id := some "B", name := some "Beta",
             editorial_summary := some "sushi bar", categories := some ["japanese"],
             rating := some (JVal.num 5) }]
          (fun _ _ => 0))
    ∧ (get_content_based_recommendations
        { uid := some "u1", preferences := ["japanese"] }
        [{ place_id := some "A", name := some "Alpha",
           editorial_summary := some "plain diner", categories := some [],
           rating := some (JVal.num 0) },
         { place_id := some "B", name := some "Beta",
           editorial_summary := some "sushi bar", categories := some ["japanese"],
           rating := some (JVal.num 5) }]
        (fun _ _ => 0)).length
      = [({ place_id := some "A", name := some "Alpha",
            editorial_summary := some "plain diner", categories := some [],
            rating := some (JVal.num 0) } : Restaurant),
         { place_id := some "B", name := some "Beta",
           editorial_summary := some "sushi bar", categories := some ["japanese"],
           rating := some (JVal.num 5) }].length
    ∧ (∀ s ∈ get_content_based_recommendations
          { uid := some "u1", preferences := ["japanese"] }
          [{ place_id := some "A", name := some "Alpha",
             editorial_summary := some "plain diner", categories := some [],
             rating := some (JVal.num 0) },
           { place_id := some "B", name := some "Beta",
             editorial_summary := some "sushi bar", categories := some ["japanese"],
             rating := some (JVal.num 5) }]
          (fun _ _ => 0), 0 ≤ s.score ∧ s.score ≤ 1)
    ∧ List.Sorted (fun a b => b.score ≤ a.score)
        (get_content_based_recommendations
          { uid := some "u1", preferences := ["japanese"] }
          [{ place_id := some "A", name := some "Alpha",
             editorial_summary := some "plain diner", categories := some [],
             rating := some (JVal.num 0) },
           { place_id := some "B", name := some "Beta",
             editorial_summary := some "sushi bar", categories := some ["japanese"],
             rating := some (JVal.num 5) }]
          (fun _ _ => 0)) :=
  claim_C4_content_output_shape _ _ _
    (⟨{ place_id := some "B", name := some "Beta",
        editorial_summary := some "sushi bar", categories := some ["japanese"],
        rating := some (JVal.num 5) }, by simp, by simp [Restaurant.ratingQ]⟩)
    (by
      intro r hr q hq
      fin_cases hr <;> simp [Restaurant.ratingQ] at hq <;> subst hq <;> norm_num)
    (by intro i; norm_num)
    rfl rfl rfl rfl

/-! ### Collaborative scorer (`collaborative.py`,
`get_collaborative_filtering_recommendations`) -/

/-- `r.get('place_id')` followed by the truthiness check `if place_id:`
(used at lines 112, 136, 153-154 of `collaborative.py` and lines 50-52 of
`hybrid.py`): yields the id only when present and non-empty. -/
def truthyPid (r : Restaurant) : Option String :=
  r.place_id.bind (fun s => if s = "" then none else some s)

/-- The zero-score fallback paths (lines 111-115 and 135-139): every
candidate with a truthy `place_id` is copied and annotated with score 0. -/
def zeroScores (restaurants_data : List Restaurant) : List Scored :=
  restaurants_data.filterMap (fun r => (truthyPid r).map (fun _ => ⟨r, 0.0⟩))

/-- Lines 122-128: the `(other_user_id, similarity)` pairs over all users in
the favorites store (`all_user_favorites`, an external read-only collaborator
modelled as its item list in iteration order with distinct keys), skipping
the target user's own id and keeping only strictly positive similarity. -/
def similarList (target_uid : Option String) (target_favs : Finset String)
    (all_user_favorites : List (String × Finset String)) : List (String × ℚ) :=
  all_user_favorites.filterMap (fun uf =>
    if target_uid = some uf.1 then none
    else if calculateJaccardSimilarity target_favs uf.2 > 0 then
      some (uf.1, calculateJaccardSimilarity target_favs uf.2)
    else none)

/-- Lines 130-131: sort by similarity descending (Python's stable
`list.sort(key=..., reverse=True)`) and keep the top 50 as
`top_neighbors`. -/
def topNeighbors (target_uid : Option String) (target_favs : Finset String)
    (all_user_favorites : List (String × Finset String)) : List (String × ℚ) :=
  ((similarList target_uid target_favs all_user_favorites).insertionSort
    (fun a b => b.2 ≤ a.2)).take 50

/-- `all_user_favorites.get(neighbor_id, set())` (line 145): first-match
lookup in the item list (keys are distinct in the source dict). -/
def favoritesOf (all_user_favorites : List (String × Finset String))
    (uid : String) : Finset String :=
  ((all_user_favorites.find? (fun uf => uf.1 = uid)).map Prod.snd).getD ∅

/-- Lines 142-157 for one candidate id: `raw_score` is the sum over
`top_neighbors` of the similarity weights of neighbors who favorited the
place, credited only when the target user has not (line 147); it is then
divided by `max_possible_score` (the sum of all neighbor weights), or 0 when
that sum is not positive. -/
def collabScore (top : List (String × ℚ))
    (all_user_favorites : List (String × Finset String))
    (target_favs : Finset String) (pid : String) : ℚ :=
  let raw_score := (top.map (fun ns =>
    if pid ∈ favoritesOf all_user_favorites ns.1 ∧ pid ∉ target_favs
    then ns.2 else 0)).sum
  let max_possible_score := (top.map Prod.snd).sum
  if max_possible_score > 0 then raw_score / max_possible_score else 0

/-- `get_collaborative_filtering_recommendations(user_profile,
restaurants_data)`, with the Firestore favorites fetch
(`_get_all_user_favorites`) passed in as `all_user_favorites`. -/
def get_collaborative_filtering_recommendations (user_profile : Profile)
    (restaurants_data : List Restaurant)
    (all_user_favorites : List (String × Finset String)) : List Scored :=
  if restaurants_data = [] then []
  else if favSet user_profile = ∅ then zeroScores restaurants_data
  else if topNeighbors user_profile.uid (favSet user_profile) all_user_favorites = []
    then zeroScores restaurants_data
  else
    restaurants_data.filterMap (fun r => (truthyPid r).map (fun pid =>
      ⟨r, collabScore (topNeighbors user_profile.uid (favSet user_profile)
            all_user_favorites)
          all_user_favorites (favSet user_profile) pid⟩))

/-- C6: for a user with a non-empty favorites set, the neighbor list never
contains the target's own uid, every entry carries the strictly positive
Jaccard similarity between the target's favorites and that user's stored
favorite set, and there are at most 50 neighbors. -/
theorem claim_C6_neighbor_set (user_profile : Profile)
    (all_user_favorites : List (String × Finset String))
    (hf : favSet user_profile ≠ ∅) :
    (∀ ns ∈ topNeighbors user_profile.uid (favSet user_profile) all_user_favorites,
      user_profile.uid ≠ some ns.1
      ∧ (∃ favs, (ns.1, favs) ∈ all_user_favorites
          ∧ ns.2 = calculateJaccardSimilarity (favSet user_profile) favs
          ∧ 0 < ns.2))
    ∧ (topNeighbors user_profile.uid (favSet user_profile)
        all_user_favorites).length ≤ 50 := by
  constructor
  · intro ns hns
    unfold topNeighbors at hns
    have hmem : ns ∈ similarList user_profile.uid (favSet user_profile)
        all_user_favorites :=
      (List.perm_insertionSort _ _).subset (List.mem_of_mem_take hns)
    unfold similarList at hmem
    rw [List.mem_filterMap] at hmem
    obtain ⟨uf, huf, heq⟩ := hmem
    split at heq
    · exact absurd heq (by simp)
    · split at heq
      · rename_i hne hpos
        have hns' : ns = (uf.1, calculateJaccardSimilarity
            (favSet user_profile) uf.2) := (Option.some_injective _ heq).symm
        subst hns'
        exact ⟨hne, uf.2, by simpa using huf, rfl, hpos⟩
      · exact absurd heq (by simp)
  · unfold topNeighbors
    exact List.length_take_le 50 _

/-- Closed instance of `claim_C6_neighbor_set`: target `u1` (favorites
`{A}`), store holding `u1` itself, an overlapping user `u2`, and a disjoint
user `u3`; the neighbor relation holds for every returned pair. -/
theorem claim_C6_neighbor_set_witness :
    (∀ ns ∈ topNeighbors (some "u1")
        (favSet { uid := some "u1", favourites := [some "A"] })
        [("u1", {"A"}), ("u2", {"A", "B"}), ("u3", {"C"})],
      (some "u1" : Option String) ≠ some ns.1
      ∧ (∃ favs, (ns.1, favs) ∈ [("u1", ({"A"} : Finset String)),
            ("u2", {"A", "B"}), ("u3", {"C"})]
          ∧ ns.2 = calculateJaccardSimilarity
              (favSet { uid := some "u1", favourites := [some "A"] }) favs
          ∧ 0 < ns.2))
    ∧ (topNeighbors (some "u1")
        (favSet { uid := some "u1", favourites := [some "A"] })
        [("u1", {"A"}), ("u2", {"A", "B"}), ("u3", {"C"})]).length ≤ 50 :=
  claim_C6_neighbor_set
    { uid := some "u1", favourites := [some "A"] }
    [("u1", {"A"}), ("u2", {"A", "B"}), ("u3", {"C"})]
    (by decide)

theorem zeroScores_score {restaurants_data : List Restaurant} {s : Scored}
    (h : s ∈ zeroScores restaurants_data) : s.score = 0 := by
  unfold zeroScores at h
  rw [List.mem_filterMap] at h
  obtain ⟨r, -, hr⟩ := h
  cases ht : truthyPid r with
  | none => rw [ht] at hr; exact absurd hr (by simp)
  | some pid =>
    rw [ht] at hr
    have : (⟨r, 0.0⟩ : Scored) = s := by simpa using hr
    rw [← this]
    norm_num

theorem collabScore_of_mem_favs (top : List (String × ℚ))
    (all_user_favorites : List (String × Finset String))
    (target_favs : Finset String) (pid : String) (h : pid ∈ target_favs) :
    collabScore top all_user_favorites target_favs pid = 0 := by
  simp only [collabScore]
  have hraw : (top.map (fun ns =>
      if pid ∈ favoritesOf all_user_favorites ns.1 ∧ pid ∉ target_favs
      then ns.2 else 0)).sum = 0 := by
    apply List.sum_eq_zero
    intro x hx
    rw [List.mem_map] at hx
    obtain ⟨ns, -, rfl⟩ := hx
    rw [if_neg]
    simp [h]
  rw [hraw]
  split <;> simp

/-- C10: a candidate whose `place_id` is already among the target user's
favourites always receives collaborative score exactly 0 — similarity weights
are credited only to places the target has not favorited (line 147). -/
theorem claim_C10_favorited_candidate_scores_zero (user_profile : Profile)
    (restaurants_data : List Restaurant)
    (all_user_favorites : List (String × Finset String)) (s : Scored) (pid : String)
    (hs : s ∈ get_collaborative_filtering_recommendations user_profile
      restaurants_data all_user_favorites)
    (hpid : s.rec_data.place_id = some pid)
    (hfav : pid ∈ favSet user_profile) :
    s.score = 0 := by
  unfold get_collaborative_filtering_recommendations at hs
  split at hs
  · exact absurd hs (by simp)
  · split at hs
    · exact zeroScores_score hs
    · split at hs
      · exact zeroScores_score hs
      · rw [List.mem_filterMap] at hs
        obtain ⟨r, -, hr⟩ := hs
        cases ht : truthyPid r with
        | none => rw [ht] at hr; exact absurd hr (by simp)
        | some pid' =>
          rw [ht] at hr
          have hsr : (⟨r, collabScore (topNeighbors user_profile.uid
              (favSet user_profile) all_user_favorites) all_user_favorites
              (favSet user_profile) pid'⟩ : Scored) = s := by simpa using hr
          have hpp : pid' = pid := by
            have hpl : r.place_id = some pid := by rw [← hsr] at hpid; exact hpid
            unfold truthyPid at ht
            rw [hpl, Option.some_bind] at ht
            by_cases he : pid = ""
            · rw [if_pos he] at ht; exact absurd ht (by simp)
            · rw [if_neg he] at ht; exact (Option.some_injective _ ht).symm
          rw [← hsr]
          exact hpp ▸ collabScore_of_mem_favs _ _ _ pid hfav

/-- Closed instance of `claim_C10_favorited_candidate_scores_zero`: user `u1`
has favourited place `A`; with no other users in the store, candidate `A`'s
collaborative record scores 0. -/
theorem claim_C10_favorited_candidate_scores_zero_witness :
    (⟨{ place_id := some "A" }, 0⟩ : Scored).score = 0 :=
  claim_C10_favorited_candidate_scores_zero
    { uid := some "u1", favourites := [some "A"] }
    [{ place_id := some "A" }] [] ⟨{ place_id := some "A" }, 0⟩ "A"
    (by
      norm_num [get_collaborative_filtering_recommendations, favSet, zeroScores,
        topNeighbors, similarList, truthyPid, List.insertionSort]
      decide)
    rfl (by decide)

/-! ### Hybrid combiner (`hybrid.py`) -/

/-- A candidate record annotated with `final_score` (the intermediate
`score` key has been deleted, lines 61-63). -/
structure HybridRec where
  rec_data : Restaurant
  final_score : ℚ
deriving DecidableEq, Repr

/-- Line 46: `collab_scores_map` is a dict comprehension keyed by `place_id`
over the collaborative recs that carry the key (a later rec with the same id
overwrites an earlier one, hence the last match wins); line 55 looks a
content candidate's id up with default 0. -/
def collabScoresMapGet (collab_recs : List Scored) (pid : String) : ℚ :=
  match collab_recs.reverse.find? (fun cr => cr.rec_data.place_id = some pid) with
  | some cr => cr.score
  | none => 0

/-- `_combine_and_rank_recommendations(content_recs, collab_recs, weights)`
(lines 31-68): the content list is the master list; candidates without a
truthy `place_id` are skipped (lines 50-52);
`final_score = content_score * w_content + collab_score * w_collab`; the
result is sorted by `final_score` descending (line 68, Python's stable
sort). -/
def combineAndRankRecommendations (content_recs collab_recs : List Scored)
    (w_content w_collab : ℚ) : List HybridRec :=
  ((content_recs.filterMap (fun cr => (truthyPid cr.rec_data).map (fun pid =>
    (⟨cr.rec_data,
      cr.score * w_content + collabScoresMapGet collab_recs pid * w_collab⟩
      : HybridRec)))).insertionSort (fun a b => b.final_score ≤ a.final_score))

/-- C2: with the weights `0.6/0.4` that `get_hybrid_recommendations` passes
(line 96), every content candidate with a truthy `place_id` appears in the
combiner's output with `final_score = content*0.6 + collab*0.4`, where the
collaborative score defaults to 0 for a `place_id` absent from the
collaborative list; and every output record stems from a content candidate —
a candidate present only in the collaborative list never appears. -/
theorem claim_C2_hybrid_combination (content_recs collab_recs : List Scored) :
    (∀ cr ∈ content_recs, ∀ pid, truthyPid cr.rec_data = some pid →
      (⟨cr.rec_data,
        cr.score * 0.6 + collabScoresMapGet collab_recs pid * 0.4⟩ : HybridRec)
        ∈ combineAndRankRecommendations content_recs collab_recs 0.6 0.4)
    ∧ (∀ pid, (∀ l ∈ collab_recs, l.rec_data.place_id ≠ some pid) →
        collabScoresMapGet collab_recs pid = 0)
    ∧ (∀ h ∈ combineAndRankRecommendations content_recs collab_recs 0.6 0.4,
        ∃ cr ∈ content_recs, ∃ pid, truthyPid cr.rec_data = some pid
          ∧ h = ⟨cr.rec_data,
              cr.score * 0.6 + collabScoresMapGet collab_recs pid * 0.4⟩) := by
  refine ⟨?_, ?_, ?_⟩
  · intro cr hcr pid hpid
    unfold combineAndRankRecommendations
    rw [List.mem_insertionSort, List.mem_filterMap]
    exact ⟨cr, hcr, by rw [hpid]; rfl⟩
  · intro pid hnone
    unfold collabScoresMapGet
    have : collab_recs.reverse.find? (fun cr => cr.rec_data.place_id = some pid)
        = none := by
      rw [List.find?_eq_none]
      intro l hl
      simpa using hnone l (List.mem_reverse.mp hl)
    rw [this]
  · intro h hh
    unfold combineAndRankRecommendations at hh
    rw [List.mem_insertionSort, List.mem_filterMap] at hh
    obtain ⟨cr, hcr, hmap⟩ := hh
    cases ht : truthyPid cr.rec_data with
    | none => rw [ht] at hmap; exact absurd hmap (by simp)
    | some pid =>
      rw [ht] at hmap
      exact ⟨cr, hcr, pid, ht, by simpa using hmap.symm⟩

/-- Closed instance of `claim_C2_hybrid_combination`: content candidate `A`
(score 1/2) is combined with a collaborative list holding only `B`, so its
collaborative component defaults to 0 and the annotated record is in the
output. -/
theorem claim_C2_hybrid_combination_witness :
    (⟨{ place_id := some "A" },
      (1:ℚ)/2 * 0.6 + collabScoresMapGet [⟨{ place_id := some "B" }, 1/4⟩] "A" * 0.4⟩
      : HybridRec)
      ∈ combineAndRankRecommendations [⟨{ place_id := some "A" }, 1/2⟩]
        [⟨{ place_id := some "B" }, 1/4⟩] 0.6 0.4
    ∧ collabScoresMapGet [⟨{ place_id := some "B" }, (1:ℚ)/4⟩] "A" = 0 :=
  ⟨(claim_C2_hybrid_combination [⟨{ place_id := some "A" }, 1/2⟩]
      [⟨{ place_id := some "B" }, 1/4⟩]).1
    ⟨{ place_id := some "A" }, 1/2⟩ (by simp) "A" rfl,
   (claim_C2_hybrid_combination [⟨{ place_id := some "A" }, 1/2⟩]
      [⟨{ place_id := some "B" }, 1/4⟩]).2.1 "A" (by decide)⟩

/-- A candidate record annotated with both `final_score` and
`final_score_with_rl` (lines 104-128 of `hybrid.py` add the RL key to the
combined record). -/
structure RankedRec where
  rec_data : Restaurant
  final_score : ℚ
  final_score_with_rl : ℚ
deriving DecidableEq, Repr

/-- The dict a combined rec presents to `extract_rl_features` (line 113):
the original candidate fields with the `final_score` key set. -/
def toRestaurantWithFinal (hr : HybridRec) : Restaurant :=
  { hr.rec_data with final_score := some (JVal.num hr.final_score) }

/-- `get_hybrid_recommendations(user_profile, restaurants_data)` (lines
71-147).  External collaborators are parameters: `all_user_favorites` is the
Firestore favorites fetch consumed by the collaborative scorer, `tfidf` the
sklearn text pipeline (see `get_content_based_recommendations`), and
`q_like user_id state` the loaded per-user DQN's Q-value for the `like`
action (`DQNAgent(state_size=35, action_size=4, user_id).get_q_values(state)[0]`,
a function of the persisted model for `user_id` and of the state vector).
The top-k slice at line 101 is `[:len(...)]`, a no-op kept here verbatim. -/
def get_hybrid_recommendations (user_profile : Profile)
    (restaurants_data : List Restaurant)
    (all_user_favorites : List (String × Finset String))
    (tfidf : Finset String → ℕ → ℚ) (q_like : String → List ℚ → ℚ) :
    List RankedRec :=
  let user_id := user_profile.uid.getD "unknown_user"
  let content_recs :=
    get_content_based_recommendations user_profile restaurants_data tfidf
  let collab_recs :=
    get_collaborative_filtering_recommendations user_profile restaurants_data
      all_user_favorites
  let final_recommendations :=
    combineAndRankRecommendations content_recs collab_recs 0.6 0.4
  let top_hybrid_recs := final_recommendations.take final_recommendations.length
  let reranked_recs := top_hybrid_recs.map (fun hr =>
    (⟨hr.rec_data, hr.final_score,
      hr.final_score
        + q_like user_id (extract_rl_features (toRestaurantWithFinal hr)
            CATEGORY_KEYS) * 0.3⟩ : RankedRec))
  reranked_recs.insertionSort (fun a b => b.final_score_with_rl ≤ a.final_score_with_rl)

/-- The caller-owned request state: the profile and candidate-list dicts the
web layer passes in. -/
structure CallerState where
  user_profile : Profile
  restaurants_data : List Restaurant

/-- The pipeline as an explicit state-passing call.  The caller's state
threads through unchanged: every annotation in the source is written to
per-request copies (`rec.to_dict()` at `content_based.py` line 129,
`r.copy()` at `collaborative.py` lines 113, 137, 155; the combiner and the
re-ranker mutate only those copies), and no statement assigns into
`user_profile` or the caller's candidate dicts. -/
def runGetHybridRecommendations (s : CallerState)
    (all_user_favorites : List (String × Finset String))
    (tfidf : Finset String → ℕ → ℚ) (q_like : String → List ℚ → ℚ) :
    List RankedRec × CallerState :=
  (get_hybrid_recommendations s.user_profile s.restaurants_data
    all_user_favorites tfidf q_like, s)

/-- C9: the hybrid pipeline (with the content and collaborative scorers it
calls) leaves the caller's profile and candidate list unchanged, and reads
the profile only through `uid`, `preferences`, `restrictions`, `favourites`:
two profiles agreeing on those four fields (whatever other keys the dicts
hold) produce identical output. -/
theorem claim_C9_profile_not_mutated (p p' : Profile)
    (restaurants_data : List Restaurant)
    (all_user_favorites : List (String × Finset String))
    (tfidf : Finset String → ℕ → ℚ) (q_like : String → List ℚ → ℚ)
    (h1 : p.uid = p'.uid) (h2 : p.preferences = p'.preferences)
    (h3 : p.restrictions = p'.restrictions) (h4 : p.favourites = p'.favourites) :
    (runGetHybridRecommendations ⟨p, restaurants_data⟩ all_user_favorites
        tfidf q_like).2 = ⟨p, restaurants_data⟩
    ∧ get_hybrid_recommendations p restaurants_data all_user_favorites
        tfidf q_like
      = get_hybrid_recommendations p' restaurants_data all_user_favorites
        tfidf q_like := by
  obtain ⟨u, pr, re, fa, ex⟩ := p
  obtain ⟨u', pr', re', fa', ex'⟩ := p'
  simp only at h1 h2 h3 h4
  subst h1; subst h2; subst h3; subst h4
  exact ⟨rfl, rfl⟩

/-- Closed instance of `claim_C9_profile_not_mutated`: two profiles equal on
the four read fields but with different extra keys give the same state back
and the same output. -/
theorem claim_C9_profile_not_mutated_witness :
    (runGetHybridRecommendations
        ⟨{ uid := some "u1", preferences := ["japanese"], favourites := [some "A"] },
         [{ place_id := some "A" }]⟩ [] (fun _ _ => 0) (fun _ _ => 0)).2
      = ⟨{ uid := some "u1", preferences := ["japanese"], favourites := [some "A"] },
         [{ place_id := some "A" }]⟩
    ∧ get_hybrid_recommendations
        { uid := some "u1", preferences := ["japanese"], favourites := [some "A"] }
        [{ place_id := some "A" }] [] (fun _ _ => 0) (fun _ _ => 0)
      = get_hybrid_recommendations
        { uid := some "u1", preferences := ["japanese"], favourites := [some "A"],
          extra := [("session_token", JVal.other)] }
        [{ place_id := some "A" }] [] (fun _ _ => 0) (fun _ _ => 0) :=
  claim_C9_profile_not_mutated
    { uid := some "u1", preferences := ["japanese"], favourites := [some "A"] }
    { uid := some "u1", preferences := ["japanese"], favourites := [some "A"],
      extra := [("session_token", JVal.other)] }
    [{ place_id := some "A" }] [] (fun _ _ => 0) (fun _ _ => 0)
    rfl rfl rfl rfl

/-! ### DQN feedback agent (`reinforcement_learning.py`, `views.py`) -/

/-- An experience tuple `(state, action, reward, next_state, done)` as stored
by `remember` (line 46-47). -/
structure Experience where
  state : List ℚ
  action : ℕ
  reward : ℚ
  next_state : List ℚ
  terminal : Bool
deriving DecidableEq, Repr

/-- The in-process DQN agent state, over an abstract type `W` of network
weights (the Keras tensors; their numerics are external). -/
structure Agent (W : Type) where
  weights : W
  memory : List Experience
  epsilon : ℚ

/-- `DQNAgent.__init__` plus `load_model_from_firestore` (lines 12-33,
86-108): build fresh architecture weights, then replace them with the
persisted blob for the user when present and loadable (`stored = none`
covers both an absent document and a failed load, which is caught and
logged).  The replay memory starts as an empty deque and epsilon at 1.0;
neither is persisted anywhere. -/
def initAgent {W : Type} (fresh_weights : W) (stored : Option W) : Agent W :=
  { weights := stored.getD fresh_weights, memory := [], epsilon := epsilonInit }

/-- `remember(...)` (lines 46-47): append to the memory deque, which evicts
from the front beyond `maxlen=2000`. -/
def rememberExp {W : Type} (a : Agent W) (e : Experience) : Agent W :=
  { a with memory := (a.memory ++ [e]).drop ((a.memory ++ [e]).length - 2000) }

/-- `replay(batch_size)` (lines 55-70): a no-op when the memory holds fewer
than `batch_size` experiences; otherwise one training pass over a random
minibatch followed by the epsilon update.  `train` abstracts the Keras
predict/fit loop and `sample` the minibatch drawn by `random.sample`; both
are external, passed as parameters. -/
def replayBatch {W : Type} (train : W → List Experience → W)
    (sample : List Experience) (a : Agent W) (batch_size : ℕ) : Agent W :=
  if a.memory.length < batch_size then a
  else { weights := train a.weights sample, memory := a.memory,
         epsilon := replayEpsilonStep a.epsilon }

/-- `action_map` (views.py line 90). -/
def action_map (action : String) : Option ℕ :=
  if action = "like" then some 0
  else if action = "dislike" then some 1
  else if action = "click_details" then some 2
  else if action = "skip" then some 3
  else none

/-- `reward_map` (views.py line 91). -/
def reward_map (action : String) : Option ℚ :=
  if action = "like" then some 1.0
  else if action = "dislike" then some (-1.0)
  else if action = "click_details" then some 0.5
  else if action = "skip" then some (-0.2)
  else none

/-- `views.record_feedback` (lines 72-122) for one validated feedback event,
acting on the per-user model store (`rl_models` in Firestore, modelled as a
map from user id to the persisted weights): instantiate the agent (loading
any persisted weights), extract the state, remember one terminal experience
(`done=True`, `next_state=state`), replay only when
`len(agent.memory) > batch_size` with `batch_size = 32` (lines 109-111),
then save the agent's weights back for that user. -/
def recordFeedback {W : Type} (train : W → List Experience → W)
    (sample : List Experience) (fresh_weights : W) (store : String → Option W)
    (user_id : String) (restaurant_data : Restaurant) (action_index : ℕ)
    (reward : ℚ) : String → Option W :=
  let agent0 := initAgent fresh_weights (store user_id)
  let state := extract_rl_features restaurant_data CATEGORY_KEYS
  let agent1 := rememberExp agent0 ⟨state, action_index, reward, state, true⟩
  let agent2 := if 32 < agent1.memory.length
    then replayBatch train sample agent1 32 else agent1
  fun u => if u = user_id then some agent2.weights else store u

theorem recordFeedback_saves_loaded_weights {W : Type}
    (train : W → List Experience → W) (sample : List Experience)
    (fresh_weights : W) (store : String → Option W) (user_id : String)
    (restaurant_data : Restaurant) (action_index : ℕ) (reward : ℚ) :
    recordFeedback train sample fresh_weights store user_id restaurant_data
      action_index reward user_id = some ((store user_id).getD fresh_weights) := by
  unfold recordFeedback rememberExp initAgent replayBatch
  simp

/-- C3: the claim fails on the code — a user can never accumulate stored
feedback events across requests.  `record_feedback` reconstructs the agent
with an empty replay memory on every request (only weights are persisted),
so after `remember` the memory always holds exactly one experience,
`len(agent.memory) > 32` is never true, `replay` is never invoked (whatever
the training function would do), and the weights saved after any sequence of
feedback events for a fresh user are exactly the freshly-initialized
weights. -/
theorem claim_C3_feedback_never_trains {W : Type}
    (train : W → List Experience → W) (sample : List Experience)
    (fresh_weights : W) (store : String → Option W) (user_id : String)
    (events : List (Restaurant × ℕ × ℚ))
    (hstore : store user_id = none ∨ store user_id = some fresh_weights)
    (hne : events ≠ []) :
    (events.foldl (fun st e =>
      recordFeedback train sample fresh_weights st user_id e.1 e.2.1 e.2.2) store)
      user_id = some fresh_weights := by
  have inv : ∀ (evs : List (Restaurant × ℕ × ℚ)) (st : String → Option W),
      st user_id = some fresh_weights →
      (evs.foldl (fun st e =>
        recordFeedback train sample fresh_weights st user_id e.1 e.2.1 e.2.2) st)
        user_id = some fresh_weights := by
    intro evs
    induction evs with
    | nil => intro st hst; simpa using hst
    | cons e es ih =>
      intro st hst
      rw [List.foldl_cons]
      exact ih _ (by rw [recordFeedback_saves_loaded_weights, hst]; rfl)
  cases events with
  | nil => exact absurd rfl hne
  | cons e es =>
    rw [List.foldl_cons]
    apply inv
    rw [recordFeedback_saves_loaded_weights]
    rcases hstore with h | h <;> rw [h] <;> rfl

/-- Closed instance of `claim_C3_feedback_never_trains` at the claim's
failing input: 33 consecutive `like` events for a fresh user `u1`, with a
training function that would visibly change the weights (`w + 1` on ℕ) had
`replay` ever run; the reloaded weights still equal the fresh ones. -/
theorem claim_C3_feedback_never_trains_witness :
    ((List.replicate 33
        (({ place_id := some "A", categories := some ["japanese"] } : Restaurant),
          (0 : ℕ), (1.0 : ℚ))).foldl
      (fun st e => recordFeedback (fun w _ => w + 1) [] (0 : ℕ) st "u1"
        e.1 e.2.1 e.2.2) (fun _ => none)) "u1" = some 0 :=
  claim_C3_feedback_never_trains (fun w _ => w + 1) [] 0 (fun _ => none) "u1"
    (List.replicate 33
      ({ place_id := some "A", categories := some ["japanese"] }, 0, 1.0))
    (Or.inl rfl) (by simp)

end Recommender
